import Mathlib

/-!
Verification development for the mp3DurationDetector repository.

The repository consists of a C/C++ bridge (`mp3_lib.h`, `mp3_lib.cpp`)
exposing a lifecycle API (detector / session / analyze) over a parsing
engine reached through weak symbols `mp3_rust_session_*_impl`, plus a host
test application.  The engine itself (frame parsing, VBR tags, duration
math) is not part of the sources in this tree; where a property depends on
it, the engine is modelled from the specification (definitions marked
`Modelled from the spec:`).  Everything else is translated from
`mp3_lib.cpp` / `mp3_lib.h` directly.
-/

namespace Mp3

/-- Result codes, from `mp3_result_t` in mp3_lib.h (values via `code`). -/
inductive mp3_result_t where
  | MP3_OK
  | MP3_ERR_INVALID_PTR
  | MP3_ERR_INVALID_ARG
  | MP3_ERR_OUT_OF_MEMORY
  | MP3_ERR_IO
  | MP3_ERR_INVALID_FORMAT
  | MP3_ERR_NOT_IMPLEMENTED
  | MP3_ERR_INTERNAL
  | MP3_ERR_UNKNOWN
deriving DecidableEq

/-- Numeric value of each result code, per the enum in mp3_lib.h. -/
def mp3_result_t.code : mp3_result_t → Nat
  | .MP3_OK => 0
  | .MP3_ERR_INVALID_PTR => 1
  | .MP3_ERR_INVALID_ARG => 2
  | .MP3_ERR_OUT_OF_MEMORY => 3
  | MP3_ERR_IO => 4
  | .MP3_ERR_INVALID_FORMAT => 5
  | .MP3_ERR_NOT_IMPLEMENTED => 6
  | .MP3_ERR_INTERNAL => 7
  | .MP3_ERR_UNKNOWN => 255

/-- Output record `mp3_audio_info_t` from mp3_lib.h.  Machine integers are
modelled as `Nat`; none of the analysed quantities approach the 32/64-bit
bounds in the claims considered. -/
structure mp3_audio_info_t where
  sample_rate : Nat
  channels : Nat
  bits_per_sample : Nat
  bitrate : Nat
  duration_ms : Nat
  data_size : Nat
  valid : Nat
deriving DecidableEq

/-- The all-zero record, the result of `memset(out_info, 0, sizeof *out_info)`. -/
def zeroInfo : mp3_audio_info_t := ⟨0, 0, 0, 0, 0, 0, 0⟩

/-- Modelled from the spec: the ByteSource abstraction (§3).  The engine is
not in this tree; a source is the byte content reachable through the host
`read_at` callback: a byte function and the physical size after which reads
return zero bytes. -/
structure ByteSource where
  data : Nat → Nat
  size : Nat

/-- Modelled from the spec: a single byte read through the source; values
are bytes, hence reduced mod 256. -/
def readByte (s : ByteSource) (i : Nat) : Nat := s.data i % 256

/-- Modelled from the spec: MPEG version field (§3 FrameHeader). -/
inductive MpegVersion where
  | v1
  | v2
  | v2_5
deriving DecidableEq

/-- Modelled from the spec: MPEG layer field (§3 FrameHeader). -/
inductive MpegLayer where
  | l1
  | l2
  | l3
deriving DecidableEq

/-- Modelled from the spec: decoded frame header (§3, §4.3).  `channel_mode`
keeps the raw 2-bit field (0 stereo, 1 joint stereo, 2 dual, 3 mono). -/
structure FrameHeader where
  version : MpegVersion
  layer : MpegLayer
  bitrate_bps : Nat
  sample_rate_hz : Nat
  channel_mode : Nat
  padding : Nat
  protection : Nat
  frame_length_bytes : Nat
deriving DecidableEq

/-- Modelled from the spec: bitrate lookup tables keyed by (version, layer)
(§4.3), exact MPEG values in bits per second; index 0 (free format) and 15
(reserved) are rejected by the decoder before lookup. -/
def bitrateTable (v : MpegVersion) (l : MpegLayer) (idx : Nat) : Nat :=
  match v, l with
  | .v1, .l1 =>
      [0, 32, 64, 96, 128, 160, 192, 224, 256, 288, 320, 352, 384, 416, 448].getD idx 0 * 1000
  | .v1, .l2 =>
      [0, 32, 48, 56, 64, 80, 96, 112, 128, 160, 192, 224, 256, 320, 384].getD idx 0 * 1000
  | .v1, .l3 =>
      [0, 32, 40, 48, 56, 64, 80, 96, 112, 128, 160, 192, 224, 256, 320].getD idx 0 * 1000
  | _, .l1 =>
      [0, 32, 48, 56, 64, 80, 96, 112, 128, 144, 160, 176, 192, 224, 256].getD idx 0 * 1000
  | _, _ =>
      [0, 8, 16, 24, 32, 40, 48, 56, 64, 80, 96, 112, 128, 144, 160].getD idx 0 * 1000

/-- Modelled from the spec: sample-rate lookup table keyed by version
(§4.3); index 3 is reserved and rejected by the decoder. -/
def sampleRateTable (v : MpegVersion) (idx : Nat) : Nat :=
  match v with
  | .v1 => [44100, 48000, 32000].getD idx 0
  | .v2 => [22050, 24000, 16000].getD idx 0
  | .v2_5 => [11025, 12000, 8000].getD idx 0

/-- Modelled from the spec: samples per frame, fixed per (version, layer)
(§4.5). -/
def samplesPerFrame (v : MpegVersion) (l : MpegLayer) : Nat :=
  match l with
  | .l1 => 384
  | .l2 => 1152
  | .l3 => match v with
    | .v1 => 1152
    | _ => 576

/-- Modelled from the spec: frame length in bytes (§4.3), truncating
integer division. -/
def frameLength (v : MpegVersion) (l : MpegLayer) (bitrate rate padding : Nat) : Nat :=
  match l with
  | .l1 => (12 * bitrate / rate + padding) * 4
  | _ => match v with
    | .v1 => 144 * bitrate / rate + padding
    | _ => 72 * bitrate / rate + padding

/-- Modelled from the spec: version bits of the header (§4.3); value 1 is
reserved. -/
def decodeVersion (n : Nat) : Option MpegVersion :=
  if n = 0 then some .v2_5
  else if n = 2 then some .v2
  else if n = 3 then some .v1
  else none

/-- Modelled from the spec: layer bits of the header (§4.3); value 0 is
reserved. -/
def decodeLayer (n : Nat) : Option MpegLayer :=
  if n = 1 then some .l3
  else if n = 2 then some .l2
  else if n = 3 then some .l1
  else none

/-- Modelled from the spec: decode 4 header bytes into a FrameHeader or
reject (§4.3).  The 11-bit sync is the whole first byte plus the top three
bits of the second; bitrate index 0 (free format) and 15, and sample-rate
index 3, are rejected; a derived frame length below 4 violates the §3
invariant and is rejected. -/
def decodeHeader (b0 b1 b2 b3 : Nat) : Option FrameHeader :=
  if b0 = 255 ∧ b1 / 32 = 7 then
    match decodeVersion (b1 / 8 % 4), decodeLayer (b1 / 2 % 4) with
    | some v, some l =>
      let bi := b2 / 16
      let si := b2 / 4 % 4
      if bi = 0 ∨ bi = 15 ∨ si = 3 then none
      else
        let br := bitrateTable v l bi
        let sr := sampleRateTable v si
        let pad := b2 / 2 % 2
        let len := frameLength v l br sr pad
        if len < 4 then none
        else some ⟨v, l, br, sr, b3 / 64, pad, b1 % 2, len⟩
    | _, _ => none
  else none

/-- Modelled from the spec: decoded synchsafe size of a leading ID3v2 tag
(§4.1): four size bytes, each with its high bit masked off, big-endian base
128. -/
def id3v2Size (src : ByteSource) : Nat :=
  readByte src 6 % 128 * 2097152 + readByte src 7 % 128 * 16384 +
    readByte src 8 % 128 * 128 + readByte src 9 % 128

/-- Modelled from the spec: audio start offset after skipping a leading
ID3v2 tag (§4.1).  Signature bytes are the ASCII codes of "ID3"; the
footer-present flag is bit 4 of the flags byte. -/
def audioStart (src : ByteSource) : Nat :=
  if readByte src 0 = 73 ∧ readByte src 1 = 68 ∧ readByte src 2 = 51 then
    10 + id3v2Size src + (if readByte src 5 / 16 % 2 = 1 then 10 else 0)
  else 0

/-- Modelled from the spec: audio end offset for a source of known total
size (§4.1): total size minus 128 when the last 128 bytes start with the
ASCII marker "TAG", the total size otherwise. -/
def audioEnd (src : ByteSource) (total : Nat) : Nat :=
  if 128 ≤ total ∧ readByte src (total - 128) = 84 ∧
      readByte src (total - 127) = 65 ∧ readByte src (total - 126) = 71 then
    total - 128
  else total

/-- Modelled from the spec: frame synchronizer (§4.2).  Scans byte by byte
from `off` for a header the decoder accepts; a candidate is confirmed only
if, when feasible inside the audio region, the next frame position also
begins with a valid sync pattern.  `fuel` is the fixed lookahead window. -/
def findFrame (src : ByteSource) (audio_end : Nat) : Nat → Nat → Option (Nat × FrameHeader)
  | 0, _ => none
  | fuel + 1, off =>
    if off + 4 ≤ audio_end then
      match decodeHeader (readByte src off) (readByte src (off + 1))
          (readByte src (off + 2)) (readByte src (off + 3)) with
      | some h =>
        if off + h.frame_length_bytes + 2 ≤ audio_end →
            readByte src (off + h.frame_length_bytes) = 255 ∧
              readByte src (off + h.frame_length_bytes + 1) / 32 = 7 then
          some (off, h)
        else findFrame src audio_end fuel (off + 1)
      | none => findFrame src audio_end fuel (off + 1)
    else none

/-- Modelled from the spec: the scan-window policy value of §4.2, 64 KiB. -/
def scanWindow : Nat := 65536

/-- Modelled from the spec: VBR tag payload (§3 VbrInfo); only the frame
and byte counts are used by the duration estimator. -/
structure VbrInfo where
  frame_count : Option Nat
  byte_count : Option Nat
deriving DecidableEq

/-- Modelled from the spec: big-endian 32-bit word at an offset. -/
def be32 (src : ByteSource) (o : Nat) : Nat :=
  readByte src o * 16777216 + readByte src (o + 1) * 65536 +
    readByte src (o + 2) * 256 + readByte src (o + 3)

/-- Modelled from the spec: side-information size determining the Xing tag
offset (§4.4, standard side-info size table): MPEG1 17 bytes for mono and
32 otherwise, MPEG2/2.5 9 bytes for mono and 17 otherwise (channel mode 3
is mono). -/
def sideInfoSize (v : MpegVersion) (mode : Nat) : Nat :=
  match v with
  | .v1 => if mode = 3 then 17 else 32
  | _ => if mode = 3 then 9 else 17

/-- Modelled from the spec: VBR header extractor (§4.4).  Looks for the
ASCII signatures "Xing"/"Info" just past the side information of the first
frame, then for "VBRI" at the fixed offset 36 of the frame; absence of both
yields no VbrInfo and the stream is treated as CBR. -/
def extractVbr (src : ByteSource) (frameOff : Nat) (h : FrameHeader) : Option VbrInfo :=
  let xo := frameOff + 4 + sideInfoSize h.version h.channel_mode
  if (readByte src xo = 88 ∧ readByte src (xo + 1) = 105 ∧
        readByte src (xo + 2) = 110 ∧ readByte src (xo + 3) = 103) ∨
      (readByte src xo = 73 ∧ readByte src (xo + 1) = 110 ∧
        readByte src (xo + 2) = 102 ∧ readByte src (xo + 3) = 111) then
    let flags := be32 src (xo + 4)
    let hasF := flags % 2 = 1
    let fc := if flags % 2 = 1 then some (be32 src (xo + 8)) else none
    let bc := if flags / 2 % 2 = 1 then
        some (be32 src (xo + 8 + (if hasF then 4 else 0)))
      else none
    some ⟨fc, bc⟩
  else
    let vo := frameOff + 36
    if readByte src vo = 86 ∧ readByte src (vo + 1) = 66 ∧
        readByte src (vo + 2) = 82 ∧ readByte src (vo + 3) = 73 then
      some ⟨some (be32 src (vo + 14)), some (be32 src (vo + 10))⟩
    else none

/-- Modelled from the spec: the fallback full-frame scan (§4.5, last policy
row): walk frame by frame from the audio start, summing frame count and
byte count, stopping at the first offset where no header decodes or the
source ends.  Fuel bounds the recursion; each accepted frame is at least 4
bytes long, so `limit` steps always suffice. -/
def scanFrames (src : ByteSource) (limit : Nat) : Nat → Nat → Nat × Nat
  | 0, _ => (0, 0)
  | fuel + 1, off =>
    if off + 4 ≤ limit then
      match decodeHeader (readByte src off) (readByte src (off + 1))
          (readByte src (off + 2)) (readByte src (off + 3)) with
      | some h =>
        let rest := scanFrames src limit fuel (off + h.frame_length_bytes)
        (rest.1 + 1, rest.2 + h.frame_length_bytes)
      | none => (0, 0)
    else (0, 0)

/-- Modelled from the spec: duration estimator policy table (§4.5).  The
spec writes the formulas over real numbers (its own §8 boundary example
expects millisecond precision); they are rendered here with the final
truncating division taken after the factor 1000, the only integer reading
consistent with those examples.  Returns (duration ms, reported bitrate)
or the invalid-format outcome on the degenerate cases of §4.5. -/
def computeDuration (src : ByteSource) (h : FrameHeader) (vbr : Option VbrInfo)
    (a e : Nat) (sizeKnown : Prop) [Decidable sizeKnown] : Except mp3_result_t (Nat × Nat) :=
  let spf := samplesPerFrame h.version h.layer
  if h.sample_rate_hz = 0 then .error .MP3_ERR_INVALID_FORMAT
  else
    match vbr with
    | some v =>
      match v.frame_count, v.byte_count with
      | some fc, bcOpt =>
        if fc = 0 then .error .MP3_ERR_INVALID_FORMAT
        else
          let dur := fc * spf * 1000 / h.sample_rate_hz
          let br := match bcOpt with
            | some bc => if dur = 0 then h.bitrate_bps else bc * 8 * 1000 / dur
            | none => h.bitrate_bps
          .ok (dur, br)
      | none, some bc => .ok (bc * 8 * 1000 / h.bitrate_bps, h.bitrate_bps)
      | none, none => .ok ((e - a) * 8 * 1000 / h.bitrate_bps, h.bitrate_bps)
    | none =>
      if sizeKnown then .ok ((e - a) * 8 * 1000 / h.bitrate_bps, h.bitrate_bps)
      else
        let counts := scanFrames src e e a
        if counts.1 = 0 then .error .MP3_ERR_INVALID_FORMAT
        else
          let dur := counts.1 * spf * 1000 / h.sample_rate_hz
          let br := if dur = 0 then h.bitrate_bps else counts.2 * 8 * 1000 / dur
          .ok (dur, br)

/-- Modelled from the spec: one full analysis (§2 control flow, §4.6):
tag skipping, frame synchronization, VBR extraction, duration estimation
and result assembly, or the first error met.  `source_size` is the host
declared total size, 0 meaning unknown (mp3_lib.h `source_size`). -/
def mp3_spec_analyze_core (src : ByteSource) (source_size : Nat) :
    Except mp3_result_t mp3_audio_info_t :=
  let sizeKnown := source_size ≠ 0
  let a := audioStart src
  let e := if sizeKnown then audioEnd src source_size else src.size
  match findFrame src e scanWindow a with
  | none => .error .MP3_ERR_INVALID_FORMAT
  | some (off, h) =>
    match computeDuration src h (extractVbr src off h) a e sizeKnown with
    | .error c => .error c
    | .ok db =>
      let channels := if h.channel_mode = 3 then 1 else 2
      if 0 < db.1 ∧ 0 < h.sample_rate_hz ∧ (channels = 1 ∨ channels = 2) then
        .ok ⟨h.sample_rate_hz, channels, 16, db.2, db.1, e - a, 1⟩
      else .error .MP3_ERR_INVALID_FORMAT

/-- Modelled from the spec: the engine entry as seen through
`mp3_rust_session_run_impl`: result code plus the final content of the
output record, which starts zeroed (§4.6, §7: failures leave the record
zeroed with valid = 0). -/
def mp3_spec_analyze (src : ByteSource) (source_size : Nat) :
    mp3_result_t × mp3_audio_info_t :=
  match mp3_spec_analyze_core src source_size with
  | .ok i => (.MP3_OK, i)
  | .error c => (c, zeroInfo)

/-- The detector struct from mp3_lib.cpp (`struct mp3_detector_t`), a
single reserved byte; the translation unit holds one zero-initialised
global `g_detector`. -/
structure mp3_detector_state where
  reserved : Nat
deriving DecidableEq

/-- The host capability record `mp3_host_api_t` from mp3_lib.h.  The pair
(user_ctx, read_at) is modelled by the ByteSource it denotes plus a flag
recording whether the `read_at` function pointer itself is null; the other
callbacks only matter through their nullness to the code in this tree. -/
structure mp3_host_api_t where
  src : ByteSource
  source_size : Nat
  read_at_null : Bool
  alloc_null : Bool
  free_null : Bool
  log_null : Bool

/-- A session object from mp3_lib.cpp (`struct mp3_session_t`): the opaque
`rust_session` it stores is created from, and behaves according to, the
host api passed at init, so it is modelled by that api together with an
allocation identity used to track freshness. -/
structure mp3_session_t where
  id : Nat
  api : mp3_host_api_t

/-- The engine behind the weak symbols `mp3_rust_session_init_impl` and
`mp3_rust_session_run_impl`: the init result, and the run result together
with the final content of the (pre-zeroed) output record. -/
structure RustImpl where
  init : mp3_host_api_t → mp3_result_t
  run : mp3_host_api_t → mp3_result_t × mp3_audio_info_t

/-- The weak stub implementations from mp3_lib.cpp (lines 56-78): init
fails with NOT_IMPLEMENTED; run re-zeroes the record and fails with
NOT_IMPLEMENTED. -/
def stubRustImpl : RustImpl where
  init := fun _ => .MP3_ERR_NOT_IMPLEMENTED
  run := fun _ => (.MP3_ERR_NOT_IMPLEMENTED, zeroInfo)

/-- Modelled from the spec: the linked engine.  Session init only captures
the host capabilities (the optional alloc/free/log callbacks never being
required, §6); run performs one full analysis of the ByteSource. -/
def specRustImpl : RustImpl where
  init := fun _ => .MP3_OK
  run := fun h => mp3_spec_analyze h.src h.source_size

/-- Mutable state of the translation unit: the global `g_detector` plus an
allocator view (fresh ids and the set of live session allocations). -/
structure BridgeState where
  g_detector : mp3_detector_state
  nextId : Nat
  live : List Nat
deriving DecidableEq

/-- The address of the global `g_detector`; all detector handles the API
ever hands out point there. -/
def gDetectorAddr : Nat := 1

/-- `mp3_detector_create` from mp3_lib.cpp: returns the address of
`g_detector`, touching nothing. -/
def mp3_detector_create (st : BridgeState) : Option Nat × BridgeState :=
  (some gDetectorAddr, st)

/-- `mp3_detector_destroy` from mp3_lib.cpp: ignores its argument. -/
def mp3_detector_destroy (detector : Option Nat) (st : BridgeState) : BridgeState :=
  st

/-- `mp3_detector_instance` from mp3_lib.cpp: returns the address of
`g_detector`, touching nothing. -/
def mp3_detector_instance (st : BridgeState) : Option Nat × BridgeState :=
  (some gDetectorAddr, st)

/-- `mp3_session_init` from mp3_lib.cpp.  `slot` is the `out_session`
argument: `none` when the pointer is null, otherwise the current pointee
(itself a nullable session pointer).  `allocOk` models whether
`new (std::nothrow)` succeeds.  Returns the result code, the final content
of the slot, and the new state. -/
def mp3_session_init (impl : RustImpl) (detector : Option Nat)
    (host_api : Option mp3_host_api_t) (slot : Option (Option mp3_session_t))
    (allocOk : Bool) (st : BridgeState) :
    mp3_result_t × Option (Option mp3_session_t) × BridgeState :=
  match detector, host_api, slot with
  | some _, some h, some _ =>
    if h.read_at_null then (.MP3_ERR_INVALID_ARG, slot, st)
    else if allocOk then
      let c := impl.init h
      if c = .MP3_OK then
        (.MP3_OK, some (some ⟨st.nextId, h⟩),
          { st with nextId := st.nextId + 1, live := st.nextId :: st.live })
      else (c, some none, st)
    else (.MP3_ERR_OUT_OF_MEMORY, some none, st)
  | _, _, _ => (.MP3_ERR_INVALID_PTR, slot, st)

/-- `mp3_session_run` from mp3_lib.cpp.  `info` is the `out_info` argument:
`none` when the pointer is null, otherwise the current pointee.  On the
non-null path the record is zeroed and the engine writes it; the bridge
state is never touched. -/
def mp3_session_run (impl : RustImpl) (session : Option mp3_session_t)
    (info : Option mp3_audio_info_t) : mp3_result_t × Option mp3_audio_info_t :=
  match session, info with
  | some s, some _ =>
    let r := impl.run s.api
    (r.1, some r.2)
  | _, _ => (.MP3_ERR_INVALID_PTR, info)

/-- `mp3_session_deinit` from mp3_lib.cpp: a null session is ignored,
otherwise the engine teardown (no observable effect) runs and the session
allocation is released.  The function returns nothing and has no failure
outcome. -/
def mp3_session_deinit (session : Option mp3_session_t) (st : BridgeState) : BridgeState :=
  match session with
  | none => st
  | some s => { st with live := st.live.erase s.id }

/-- `mp3_analyze` from mp3_lib.cpp: its own null checks, then init into a
local null-initialised session variable, then — only when init succeeded —
one run and the teardown. -/
def mp3_analyze (impl : RustImpl) (detector : Option Nat)
    (host_api : Option mp3_host_api_t) (info : Option mp3_audio_info_t)
    (allocOk : Bool) (st : BridgeState) :
    mp3_result_t × Option mp3_audio_info_t × BridgeState :=
  match detector, host_api, info with
  | some _, some _, some _ =>
    let r := mp3_session_init impl detector host_api (some none) allocOk st
    if r.1 = .MP3_OK then
      let s := match r.2.1 with
        | some v => v
        | none => none
      let rr := mp3_session_run impl s info
      (rr.1, rr.2, mp3_session_deinit s r.2.2)
    else (r.1, info, r.2.2)
  | _, _, _ => (.MP3_ERR_INVALID_PTR, info, st)

/-- Third header byte of a synthetic frame: bitrate index `bi`, sample-rate
index `si`, padding 0, private bit 0. -/
def hdrB2 (bi si : Nat) : Nat := bi * 16 + si * 4

/-- Frame length of a synthetic MPEG1 Layer III frame with bitrate index
`bi` and sample-rate index `si` (padding 0). -/
def synthFrameLen (bi si : Nat) : Nat :=
  144 * bitrateTable .v1 .l3 bi / sampleRateTable .v1 si

/-- Byte `i` of a synthetic CBR stream of identical frames of length `L`:
the four header bytes (0xFF 0xFB, bitrate/sample-rate byte, channel-mode
byte for mode `m`) repeated every `L` positions, zeros elsewhere. -/
def synthByte (L bi si m i : Nat) : Nat :=
  if i % L = 0 then 255
  else if i % L = 1 then 251
  else if i % L = 2 then hdrB2 bi si
  else if i % L = 3 then m * 64
  else 0

/-- A synthetic CBR ByteSource: `N` identical MPEG1 Layer III frames, no
ID3 tags, no VBR tag. -/
def synthSrc (N bi si m : Nat) : ByteSource :=
  ⟨fun i => synthByte (synthFrameLen bi si) bi si m i, N * synthFrameLen bi si⟩

/-- Host api over a synthetic CBR stream with known total size and a
present read callback; the optional callbacks are absent. -/
def synthApi (N bi si m : Nat) : mp3_host_api_t :=
  ⟨synthSrc N bi si m, N * synthFrameLen bi si, false, true, true, true⟩

/-- The decoded header of a synthetic frame. -/
def synthHeader (bi si m : Nat) : FrameHeader :=
  ⟨.v1, .l3, bitrateTable .v1 .l3 bi, sampleRateTable .v1 si, m, 0, 1,
    synthFrameLen bi si⟩

/-- The output record the spec-modelled analysis produces on a synthetic
CBR stream: CBR duration formula, nominal first-frame bitrate. -/
def synthInfo (N bi si m : Nat) : mp3_audio_info_t :=
  ⟨sampleRateTable .v1 si, if m = 3 then 1 else 2, 16, bitrateTable .v1 .l3 bi,
    N * synthFrameLen bi si * 8 * 1000 / bitrateTable .v1 .l3 bi,
    N * synthFrameLen bi si, 1⟩

theorem synth_tables (bi si : Nat) (h1 : 1 ≤ bi) (h2 : bi ≤ 14) (h3 : si < 3) :
    96 ≤ synthFrameLen bi si ∧
      bitrateTable .v1 .l3 bi ≤ 8000 * synthFrameLen bi si ∧
      0 < sampleRateTable .v1 si ∧ 0 < bitrateTable .v1 .l3 bi := by
  interval_cases bi <;> interval_cases si <;> decide

theorem synthByte_lt (L bi si m i : Nat) (h2 : bi ≤ 14) (h3 : si < 3) (h4 : m < 4) :
    synthByte L bi si m i < 256 := by
  unfold synthByte hdrB2
  split
  · omega
  · split
    · omega
    · split
      · omega
      · split <;> omega

theorem readByte_synth (N bi si m i : Nat) (h2 : bi ≤ 14) (h3 : si < 3) (h4 : m < 4) :
    readByte (synthSrc N bi si m) i = synthByte (synthFrameLen bi si) bi si m i := by
  unfold readByte synthSrc
  exact Nat.mod_eq_of_lt (synthByte_lt _ _ _ _ _ h2 h3 h4)

theorem synthByte_zero (L bi si m i : Nat) (h4 : 4 ≤ i % L) :
    synthByte L bi si m i = 0 := by
  unfold synthByte
  split
  · omega
  · split
    · omega
    · split
      · omega
      · split
        · omega
        · rfl

theorem synthByte_ne_65 (L bi si m i : Nat) :
    synthByte L bi si m i ≠ 65 := by
  unfold synthByte hdrB2
  split
  · omega
  · split
    · omega
    · split
      · omega
      · split <;> omega

theorem decode_synth (bi si m : Nat) (h1 : 1 ≤ bi) (h2 : bi ≤ 14) (h3 : si < 3) (h4 : m < 4) :
    decodeHeader 255 251 (hdrB2 bi si) (m * 64) = some (synthHeader bi si m) := by
  interval_cases bi <;> interval_cases si <;> interval_cases m <;> decide

theorem synth_byte_at (N bi si m i : Nat) (h2 : bi ≤ 14) (h3 : si < 3) (h4 : m < 4)
    (hi : 4 ≤ i) (hL : i < synthFrameLen bi si) :
    readByte (synthSrc N bi si m) i = 0 := by
  rw [readByte_synth N bi si m i h2 h3 h4]
  exact synthByte_zero _ _ _ _ _ (by rw [Nat.mod_eq_of_lt hL]; exact hi)

theorem synth_audioStart (N bi si m : Nat) (h2 : bi ≤ 14) (h3 : si < 3) (h4 : m < 4) :
    audioStart (synthSrc N bi si m) = 0 := by
  unfold audioStart
  rw [readByte_synth N bi si m 0 h2 h3 h4]
  rw [if_neg]
  intro hc
  rw [synthByte, Nat.zero_mod, if_pos rfl] at hc
  omega

theorem synth_audioEnd (N bi si m t : Nat) (h2 : bi ≤ 14) (h3 : si < 3) (h4 : m < 4) :
    audioEnd (synthSrc N bi si m) t = t := by
  unfold audioEnd
  rw [if_neg]
  intro hc
  have h65 := hc.2.2.1
  rw [readByte_synth N bi si m _ h2 h3 h4] at h65
  exact synthByte_ne_65 _ _ _ _ _ h65

theorem synth_findFrame (N bi si m e : Nat) (h1 : 1 ≤ bi) (h2 : bi ≤ 14) (h3 : si < 3)
    (h4 : m < 4) (he : 4 ≤ e) :
    findFrame (synthSrc N bi si m) e scanWindow 0 = some (0, synthHeader bi si m) := by
  obtain ⟨hL96, -, -, -⟩ := synth_tables bi si h1 h2 h3
  have hb0 : readByte (synthSrc N bi si m) 0 = 255 := by
    rw [readByte_synth N bi si m 0 h2 h3 h4, synthByte, Nat.zero_mod, if_pos rfl]
  have hb1 : readByte (synthSrc N bi si m) 1 = 251 := by
    rw [readByte_synth N bi si m 1 h2 h3 h4, synthByte,
      Nat.mod_eq_of_lt (by omega : 1 < synthFrameLen bi si)]
    norm_num
  have hb2 : readByte (synthSrc N bi si m) 2 = hdrB2 bi si := by
    rw [readByte_synth N bi si m 2 h2 h3 h4, synthByte,
      Nat.mod_eq_of_lt (by omega : 2 < synthFrameLen bi si)]
    norm_num
  have hb3 : readByte (synthSrc N bi si m) 3 = m * 64 := by
    rw [readByte_synth N bi si m 3 h2 h3 h4, synthByte,
      Nat.mod_eq_of_lt (by omega : 3 < synthFrameLen bi si)]
    norm_num
  have hwin : scanWindow = 65535 + 1 := rfl
  rw [hwin, findFrame]
  simp only [Nat.zero_add]
  rw [if_pos (by omega : 4 ≤ e)]
  rw [hb0, hb1, hb2, hb3, decode_synth bi si m h1 h2 h3 h4]
  dsimp only [synthHeader]
  have hcond : synthFrameLen bi si + 2 ≤ e →
      readByte (synthSrc N bi si m) (synthFrameLen bi si) = 255 ∧
        readByte (synthSrc N bi si m) (synthFrameLen bi si + 1) / 32 = 7 := by
    intro hfeas
    constructor
    · rw [readByte_synth N bi si m _ h2 h3 h4, synthByte, Nat.mod_self, if_pos rfl]
    · rw [readByte_synth N bi si m _ h2 h3 h4, synthByte, Nat.add_mod_left,
        Nat.mod_eq_of_lt (by omega : 1 < synthFrameLen bi si)]
      norm_num
  rw [if_pos hcond]

theorem synth_extractVbr (N bi si m : Nat) (h1 : 1 ≤ bi) (h2 : bi ≤ 14) (h3 : si < 3)
    (h4 : m < 4) :
    extractVbr (synthSrc N bi si m) 0 (synthHeader bi si m) = none := by
  obtain ⟨hL96, -, -, -⟩ := synth_tables bi si h1 h2 h3
  have hbyte : ∀ i, 4 ≤ i → i ≤ 40 → readByte (synthSrc N bi si m) i = 0 := by
    intro i hi hi40
    exact synth_byte_at N bi si m i h2 h3 h4 hi (by omega)
  have hs : sideInfoSize MpegVersion.v1 m = 17 ∨ sideInfoSize MpegVersion.v1 m = 32 := by
    by_cases hm : m = 3
    · left
      change (if m = 3 then 17 else 32) = 17
      rw [if_pos hm]
    · right
      change (if m = 3 then 17 else 32) = 32
      rw [if_neg hm]
  unfold extractVbr
  simp only [synthHeader, Nat.zero_add]
  rcases hs with hs | hs
  · rw [hs]
    rw [if_neg, if_neg]
    · intro hc
      rw [hbyte 36 (by omega) (by omega)] at hc
      omega
    · rintro (⟨hx, -⟩ | ⟨hx, -⟩) <;>
        rw [hbyte (4 + 17) (by omega) (by omega)] at hx <;> omega
  · rw [hs]
    rw [if_neg, if_neg]
    · intro hc
      rw [hbyte 36 (by omega) (by omega)] at hc
      omega
    · rintro (⟨hx, -⟩ | ⟨hx, -⟩) <;>
        rw [hbyte (4 + 32) (by omega) (by omega)] at hx <;> omega

theorem synth_computeDuration (N bi si m e : Nat) (h1 : 1 ≤ bi) (h2 : bi ≤ 14)
    (h3 : si < 3) (p : Prop) [Decidable p] (hp : p) :
    computeDuration (synthSrc N bi si m) (synthHeader bi si m) none 0 e p =
      .ok (e * 8 * 1000 / bitrateTable .v1 .l3 bi, bitrateTable .v1 .l3 bi) := by
  obtain ⟨-, -, hR, -⟩ := synth_tables bi si h1 h2 h3
  unfold computeDuration
  simp only [synthHeader]
  rw [if_neg (by omega), if_pos hp, Nat.sub_zero]

theorem synth_analyze_core (N bi si m : Nat) (h1 : 1 ≤ bi) (h2 : bi ≤ 14) (h3 : si < 3)
    (h4 : m < 4) (h5 : 1 ≤ N) :
    mp3_spec_analyze_core (synthSrc N bi si m) (N * synthFrameLen bi si) =
      .ok (synthInfo N bi si m) := by
  obtain ⟨hL96, hB, hR, hBpos⟩ := synth_tables bi si h1 h2 h3
  have hNL : 96 ≤ N * synthFrameLen bi si := by
    calc 96 ≤ synthFrameLen bi si := hL96
    _ ≤ N * synthFrameLen bi si := Nat.le_mul_of_pos_left _ h5
  unfold mp3_spec_analyze_core
  dsimp only
  rw [synth_audioStart N bi si m h2 h3 h4]
  rw [if_pos (by omega : N * synthFrameLen bi si ≠ 0)]
  rw [synth_audioEnd N bi si m _ h2 h3 h4]
  rw [synth_findFrame N bi si m _ h1 h2 h3 h4 (by omega)]
  dsimp only
  rw [synth_extractVbr N bi si m h1 h2 h3 h4]
  rw [synth_computeDuration N bi si m _ h1 h2 h3 _ (by omega : N * synthFrameLen bi si ≠ 0)]
  dsimp only
  have hdurpos : 0 < N * synthFrameLen bi si * 8 * 1000 / bitrateTable .v1 .l3 bi := by
    apply Nat.div_pos _ hBpos
    calc bitrateTable .v1 .l3 bi ≤ 8000 * synthFrameLen bi si := hB
    _ ≤ 8000 * (N * synthFrameLen bi si) :=
        Nat.mul_le_mul_left _ (Nat.le_mul_of_pos_left _ h5)
    _ = N * synthFrameLen bi si * 8 * 1000 := by ring
  rw [if_pos]
  · unfold synthInfo
    simp only [synthHeader, Nat.sub_zero]
  · refine ⟨hdurpos, ?_, ?_⟩
    · simpa only [synthHeader] using hR
    · by_cases hm : m = 3
      · left
        simp [synthHeader, hm]
      · right
        simp [synthHeader, hm]

theorem analyze_spec_ok (d : Nat) (h : mp3_host_api_t) (i : mp3_audio_info_t)
    (st : BridgeState) (hr : h.read_at_null = false) :
    mp3_analyze specRustImpl (some d) (some h) (some i) true st =
      ((mp3_spec_analyze h.src h.source_size).1,
        some (mp3_spec_analyze h.src h.source_size).2,
        { st with nextId := st.nextId + 1 }) := by
  simp [mp3_analyze, mp3_session_init, mp3_session_run, mp3_session_deinit,
    specRustImpl, hr]

theorem nat_div_eq_div_cross (x y b r : Nat) (hr : 0 < r) (hb : 0 < b)
    (hxy : x * r = y * b) : x / b = y / r := by
  rw [← Nat.mul_div_mul_right x b hr, hxy, Nat.mul_comm y b,
    Nat.mul_div_mul_left y r hb]

theorem synth_analyze (bi si m N : Nat) (st : BridgeState) (i : mp3_audio_info_t)
    (h1 : 1 ≤ bi) (h2 : bi ≤ 14) (h3 : si < 3) (h4 : m < 4) (h5 : 1 ≤ N) :
    mp3_analyze specRustImpl (some gDetectorAddr) (some (synthApi N bi si m))
        (some i) true st =
      (.MP3_OK, some (synthInfo N bi si m), { st with nextId := st.nextId + 1 }) := by
  rw [analyze_spec_ok gDetectorAddr (synthApi N bi si m) i st rfl]
  unfold mp3_spec_analyze
  have hc : mp3_spec_analyze_core (synthApi N bi si m).src (synthApi N bi si m).source_size =
      .ok (synthInfo N bi si m) := synth_analyze_core N bi si m h1 h2 h3 h4 h5
  rw [hc]

/-- Sample initial bridge state: zero-initialised `g_detector`, no live
sessions. -/
def st0 : BridgeState := ⟨⟨0⟩, 0, []⟩

/-- Claim C1 (amended): analyzing a synthetic CBR stream (MPEG1 Layer III,
bitrate index `bi`, sample-rate index `si`, channel mode `m`, `N` frames,
no VBR tag, known total size) with `mp3_analyze` and the spec-modelled
engine succeeds and yields exactly the CBR-formula duration
`(audio_end - audio_start) * 8 * 1000 / bitrate_bps`; this equals
`N * samples_per_frame * 1000 / R` (and is therefore within one
frame-duration of it) whenever the sample rate divides `144 * B`.  The
unconditional ±1-frame bound of the original claim fails for other
bitrate/sample-rate pairs (see the counterexample), because the byte-count
formula inherits `N` times the truncation error of the frame length. -/
theorem C1_cbr_duration (bi si m N : Nat) (st : BridgeState) (i : mp3_audio_info_t)
    (h1 : 1 ≤ bi) (h2 : bi ≤ 14) (h3 : si < 3) (h4 : m < 4) (h5 : 1 ≤ N) :
    mp3_analyze specRustImpl (some gDetectorAddr) (some (synthApi N bi si m))
        (some i) true st =
      (.MP3_OK, some (synthInfo N bi si m), { st with nextId := st.nextId + 1 }) ∧
    (synthInfo N bi si m).duration_ms =
      N * synthFrameLen bi si * 8 * 1000 / bitrateTable MpegVersion.v1 MpegLayer.l3 bi ∧
    (sampleRateTable MpegVersion.v1 si ∣
        144 * bitrateTable MpegVersion.v1 MpegLayer.l3 bi →
      (synthInfo N bi si m).duration_ms =
        N * samplesPerFrame MpegVersion.v1 MpegLayer.l3 * 1000 /
          sampleRateTable MpegVersion.v1 si) := by
  obtain ⟨hL96, hB, hR, hBpos⟩ := synth_tables bi si h1 h2 h3
  refine ⟨synth_analyze bi si m N st i h1 h2 h3 h4 h5, rfl, ?_⟩
  intro hdvd
  have hLR : synthFrameLen bi si * sampleRateTable MpegVersion.v1 si =
      144 * bitrateTable MpegVersion.v1 MpegLayer.l3 bi := by
    unfold synthFrameLen
    exact Nat.div_mul_cancel hdvd
  show N * synthFrameLen bi si * 8 * 1000 / bitrateTable MpegVersion.v1 MpegLayer.l3 bi =
    N * 1152 * 1000 / sampleRateTable MpegVersion.v1 si
  apply nat_div_eq_div_cross _ _ _ _ hR hBpos
  calc N * synthFrameLen bi si * 8 * 1000 * sampleRateTable MpegVersion.v1 si
      = N * 8 * 1000 * (synthFrameLen bi si * sampleRateTable MpegVersion.v1 si) := by
        ring
    _ = N * 8 * 1000 * (144 * bitrateTable MpegVersion.v1 MpegLayer.l3 bi) := by
        rw [hLR]
    _ = N * 1152 * 1000 * bitrateTable MpegVersion.v1 MpegLayer.l3 bi := by
        ring

/-- Witness for C1: a 2-frame 96 kbps, 48 kHz stereo stream, where 48000
divides 144·96000, so the duration is exactly 2·1152·1000/48000 = 48 ms. -/
theorem C1_cbr_duration_witness :
    mp3_analyze specRustImpl (some gDetectorAddr) (some (synthApi 2 7 1 0))
        (some zeroInfo) true st0 =
      (.MP3_OK, some (synthInfo 2 7 1 0), { st0 with nextId := st0.nextId + 1 }) ∧
    (synthInfo 2 7 1 0).duration_ms =
      2 * samplesPerFrame MpegVersion.v1 MpegLayer.l3 * 1000 /
        sampleRateTable MpegVersion.v1 1 :=
  ⟨(C1_cbr_duration 7 1 0 2 st0 zeroInfo (by decide) (by decide) (by decide) (by decide)
      (by decide)).1,
    (C1_cbr_duration 7 1 0 2 st0 zeroInfo (by decide) (by decide) (by decide) (by decide)
      (by decide)).2.2 (by decide)⟩

/-- Counterexample to C1 as stated: a 460-frame 32 kbps, 44100 Hz stream.
The frame length truncates to 104 bytes (144·32000/44100 = 104.49...), so
the CBR byte formula yields 11960 ms while N·1152·1000/44100 = 12016 ms:
the gap of 56 ms exceeds one frame-duration (26 ms, 27 with rounding up). -/
theorem C1_cbr_counterexample :
    (mp3_analyze specRustImpl (some gDetectorAddr) (some (synthApi 460 1 0 0))
        (some zeroInfo) true st0).2.1 = some (synthInfo 460 1 0 0) ∧
    (synthInfo 460 1 0 0).duration_ms = 11960 ∧
    460 * samplesPerFrame MpegVersion.v1 MpegLayer.l3 * 1000 /
        sampleRateTable MpegVersion.v1 0 = 12016 ∧
    samplesPerFrame MpegVersion.v1 MpegLayer.l3 * 1000 /
        sampleRateTable MpegVersion.v1 0 + 1 = 27 ∧
    ¬ Nat.dist ((synthInfo 460 1 0 0).duration_ms)
        (460 * samplesPerFrame MpegVersion.v1 MpegLayer.l3 * 1000 /
          sampleRateTable MpegVersion.v1 0) ≤ 27 := by
  refine ⟨?_, by decide, by decide, by decide, by decide⟩
  exact congrArg (fun t => t.2.1)
    (synth_analyze 1 0 0 460 st0 zeroInfo (by decide) (by decide) (by decide) (by decide)
      (by decide))

/-- Sample host api with a present read callback over an empty source; the
optional callbacks are absent. -/
def apiOk : mp3_host_api_t := ⟨⟨fun _ => 0, 0⟩, 0, false, true, true, true⟩

/-- Sample host api whose required read callback pointer is null. -/
def apiNoRead : mp3_host_api_t := ⟨⟨fun _ => 0, 0⟩, 0, true, true, true, true⟩

/-- A stale output record a careless caller might pass in: all zero except
a leftover valid = 1 flag. -/
def staleInfo : mp3_audio_info_t := ⟨0, 0, 0, 0, 0, 0, 1⟩

/-- A stale session value sitting in a caller's out_session slot. -/
def staleSession : mp3_session_t := ⟨7, apiNoRead⟩

/-- Claim C3: whenever a required pointer argument is null,
mp3_session_init, mp3_session_run and mp3_analyze return
MP3_ERR_INVALID_PTR (numeric value 1) and perform no analysis: the bridge
state, the out parameters and the engine are untouched. -/
theorem C3_null_pointer (impl : RustImpl) (d : Option Nat) (h : Option mp3_host_api_t)
    (slot : Option (Option mp3_session_t)) (sess : Option mp3_session_t)
    (info : Option mp3_audio_info_t) (allocOk : Bool) (st : BridgeState) :
    (d = none ∨ h = none ∨ slot = none →
      mp3_session_init impl d h slot allocOk st = (.MP3_ERR_INVALID_PTR, slot, st)) ∧
    (sess = none ∨ info = none →
      mp3_session_run impl sess info = (.MP3_ERR_INVALID_PTR, info)) ∧
    (d = none ∨ h = none ∨ info = none →
      mp3_analyze impl d h info allocOk st = (.MP3_ERR_INVALID_PTR, info, st)) ∧
    mp3_result_t.code .MP3_ERR_INVALID_PTR = 1 := by
  refine ⟨?_, ?_, ?_, rfl⟩
  · intro hnull
    rcases d with _ | d
    · rfl
    rcases h with _ | h
    · rfl
    rcases slot with _ | slot
    · rfl
    rcases hnull with h1 | h1 | h1 <;> exact absurd h1 (by simp)
  · intro hnull
    rcases sess with _ | sess
    · rfl
    rcases info with _ | info
    · rfl
    rcases hnull with h1 | h1 <;> exact absurd h1 (by simp)
  · intro hnull
    rcases d with _ | d
    · rfl
    rcases h with _ | h
    · rfl
    rcases info with _ | info
    · rfl
    rcases hnull with h1 | h1 | h1 <;> exact absurd h1 (by simp)

/-- Witness for C3: a null detector makes all three entry points fail with
INVALID_PTR, leaving everything untouched. -/
theorem C3_null_pointer_witness :
    mp3_session_init stubRustImpl none (some apiOk) (some none) true st0 =
      (.MP3_ERR_INVALID_PTR, some none, st0) ∧
    mp3_session_run stubRustImpl none (some zeroInfo) =
      (.MP3_ERR_INVALID_PTR, some zeroInfo) ∧
    mp3_analyze stubRustImpl none (some apiOk) (some zeroInfo) true st0 =
      (.MP3_ERR_INVALID_PTR, some zeroInfo, st0) :=
  ⟨(C3_null_pointer stubRustImpl none (some apiOk) (some none) none (some zeroInfo)
      true st0).1 (Or.inl rfl),
    (C3_null_pointer stubRustImpl none (some apiOk) (some none) none (some zeroInfo)
      true st0).2.1 (Or.inl rfl),
    (C3_null_pointer stubRustImpl none (some apiOk) (some none) none (some zeroInfo)
      true st0).2.2.1 (Or.inl rfl)⟩

/-- Claim C4: a non-null host api whose read callback is null makes
mp3_session_init (and hence mp3_analyze) fail with MP3_ERR_INVALID_ARG
(numeric value 2), creating no session and changing nothing; absent
alloc/free/log callbacks are not an error: with the read callback present
and arbitrary other flags, init reports MP3_OK under the spec-modelled
engine and NOT_IMPLEMENTED (never INVALID_ARG) under the stub. -/
theorem C4_missing_read_callback (impl : RustImpl) (d : Nat) (h : mp3_host_api_t)
    (slot : Option mp3_session_t) (info : mp3_audio_info_t)
    (allocOk : Bool) (st : BridgeState) :
    (h.read_at_null = true →
      mp3_session_init impl (some d) (some h) (some slot) allocOk st =
        (.MP3_ERR_INVALID_ARG, some slot, st) ∧
      mp3_analyze impl (some d) (some h) (some info) allocOk st =
        (.MP3_ERR_INVALID_ARG, some info, st)) ∧
    (h.read_at_null = false →
      (mp3_session_init specRustImpl (some d) (some h) (some slot) true st).1 =
        .MP3_OK ∧
      (mp3_session_init stubRustImpl (some d) (some h) (some slot) true st).1 =
        .MP3_ERR_NOT_IMPLEMENTED) ∧
    mp3_result_t.code .MP3_ERR_INVALID_ARG = 2 := by
  refine ⟨?_, ?_, rfl⟩
  · intro hr
    constructor
    · simp [mp3_session_init, hr]
    · simp [mp3_analyze, mp3_session_init, hr]
  · intro hr
    constructor
    · simp [mp3_session_init, specRustImpl, hr]
    · simp [mp3_session_init, stubRustImpl, hr]

/-- Witness for C4: the missing-read api fails with INVALID_ARG; the
all-optional-callbacks-absent api is accepted by both engines. -/
theorem C4_missing_read_callback_witness :
    mp3_session_init stubRustImpl (some gDetectorAddr) (some apiNoRead) (some none)
        true st0 = (.MP3_ERR_INVALID_ARG, some none, st0) ∧
    (mp3_session_init specRustImpl (some gDetectorAddr) (some apiOk) (some none)
        true st0).1 = .MP3_OK :=
  ⟨((C4_missing_read_callback stubRustImpl gDetectorAddr apiNoRead none zeroInfo
      true st0).1 rfl).1,
    ((C4_missing_read_callback specRustImpl gDetectorAddr apiOk none zeroInfo
      true st0).2.1 rfl).1⟩

/-- Counterexample to C5 as stated: in a stub-only build mp3_analyze with
valid arguments returns NOT_IMPLEMENTED but never writes the output
record, because the memset lives in mp3_session_run, which is never
reached when session init fails: a caller record with valid = 1 survives
un-zeroed. -/
theorem C5_counterexample :
    mp3_analyze stubRustImpl (some gDetectorAddr) (some apiOk) (some staleInfo)
        true st0 = (.MP3_ERR_NOT_IMPLEMENTED, some staleInfo, st0) ∧
    staleInfo.valid = 1 :=
  ⟨rfl, rfl⟩

/-- Claim C5 (amended): in a stub-only build, mp3_analyze with a non-null
detector, host api (read callback present) and output record returns
MP3_ERR_NOT_IMPLEMENTED (numeric value 6) and leaves the output record
untouched — so it stays zeroed exactly when the caller zeroed it — with no
surviving session and no state change. -/
theorem C5_stub_not_implemented (d : Nat) (h : mp3_host_api_t)
    (info : mp3_audio_info_t) (st : BridgeState) (hr : h.read_at_null = false) :
    mp3_analyze stubRustImpl (some d) (some h) (some info) true st =
      (.MP3_ERR_NOT_IMPLEMENTED, some info, st) ∧
    mp3_result_t.code .MP3_ERR_NOT_IMPLEMENTED = 6 := by
  constructor
  · simp [mp3_analyze, mp3_session_init, stubRustImpl, hr]
  · rfl

/-- Witness for C5 (amended): the stub build leaves a zeroed caller record
zeroed while reporting NOT_IMPLEMENTED. -/
theorem C5_stub_not_implemented_witness :
    mp3_analyze stubRustImpl (some gDetectorAddr) (some apiOk) (some zeroInfo)
        true st0 = (.MP3_ERR_NOT_IMPLEMENTED, some zeroInfo, st0) :=
  (C5_stub_not_implemented gDetectorAddr apiOk zeroInfo st0 rfl).1

theorem init_ok_inv (impl : RustImpl) (d : Nat) (h : mp3_host_api_t)
    (v : Option mp3_session_t) (allocOk : Bool) (st : BridgeState)
    (hok : (mp3_session_init impl (some d) (some h) (some v) allocOk st).1 = .MP3_OK) :
    mp3_session_init impl (some d) (some h) (some v) allocOk st =
      (.MP3_OK, some (some ⟨st.nextId, h⟩),
        { st with nextId := st.nextId + 1, live := st.nextId :: st.live }) := by
  by_cases hr : h.read_at_null = true
  · simp [mp3_session_init, hr] at hok
  cases allocOk
  · simp [mp3_session_init, hr] at hok
  by_cases hc : impl.init h = .MP3_OK
  · simp [mp3_session_init, hr, hc]
  · simp [mp3_session_init, hr, hc] at hok

/-- Claim C7: teardown is always safe: mp3_session_deinit of a null session
is a no-op on the state, deinit never signals any error (its result is only
the new state), and tearing down a session freshly produced by
mp3_session_init on which no run was ever performed releases exactly that
allocation, restoring the live set and preserving the detector. -/
theorem C7_deinit_safe (impl : RustImpl) (d : Nat) (h : mp3_host_api_t)
    (v : Option mp3_session_t) (allocOk : Bool) (st st₁ : BridgeState)
    (s : mp3_session_t) (st' : BridgeState)
    (hinit : mp3_session_init impl (some d) (some h) (some v) allocOk st =
      (.MP3_OK, some (some s), st₁)) :
    mp3_session_deinit none st' = st' ∧
    (mp3_session_deinit (some s) st₁).live = st.live ∧
    (mp3_session_deinit (some s) st₁).g_detector = st.g_detector ∧
    (mp3_session_deinit (some s) st₁).nextId = st.nextId + 1 := by
  have hok : (mp3_session_init impl (some d) (some h) (some v) allocOk st).1 =
      .MP3_OK := by
    rw [hinit]
  rw [init_ok_inv impl d h v allocOk st hok] at hinit
  obtain ⟨h1, h2⟩ : some (some (⟨st.nextId, h⟩ : mp3_session_t)) = some (some s) ∧
      ({ st with nextId := st.nextId + 1, live := st.nextId :: st.live } :
        BridgeState) = st₁ := by
    have e1 := congrArg (fun t => t.2.1) hinit
    have e2 := congrArg (fun t => t.2.2) hinit
    exact ⟨e1, e2⟩
  have hs : s = ⟨st.nextId, h⟩ := by
    injection h1 with h1'
    injection h1' with h1''
    exact h1''.symm
  subst hs
  subst h2
  refine ⟨rfl, ?_, rfl, rfl⟩
  simp [mp3_session_deinit]

/-- Witness for C7: a concrete init under the spec-modelled engine followed
immediately by teardown restores the empty live set. -/
theorem C7_deinit_safe_witness :
    mp3_session_deinit none st0 = st0 ∧
    (mp3_session_deinit (some ⟨0, apiOk⟩)
        { st0 with nextId := 1, live := [0] }).live = st0.live ∧
    (mp3_session_deinit (some ⟨0, apiOk⟩)
        { st0 with nextId := 1, live := [0] }).g_detector = st0.g_detector ∧
    (mp3_session_deinit (some ⟨0, apiOk⟩)
        { st0 with nextId := 1, live := [0] }).nextId = st0.nextId + 1 :=
  C7_deinit_safe specRustImpl gDetectorAddr apiOk none true st0
    { st0 with nextId := 1, live := [0] } ⟨0, apiOk⟩ st0 rfl

/-- Claim C8: the detector is stateless shared configuration:
mp3_detector_create and mp3_detector_instance both return the same non-null
handle (the address of the global g_detector), mp3_detector_destroy is a
no-op after which the handle is still obtainable and usable, and no
lifecycle operation ever mutates the detector state. -/
theorem C8_detector_stateless (impl : RustImpl) (d dd : Option Nat)
    (h : Option mp3_host_api_t) (slot : Option (Option mp3_session_t))
    (sess : Option mp3_session_t) (info : Option mp3_audio_info_t)
    (allocOk : Bool) (st : BridgeState) :
    mp3_detector_create st = (some gDetectorAddr, st) ∧
    mp3_detector_instance st = (some gDetectorAddr, st) ∧
    mp3_detector_destroy d st = st ∧
    mp3_detector_create (mp3_detector_destroy d st) = (some gDetectorAddr, st) ∧
    (mp3_session_init impl dd h slot allocOk st).2.2.g_detector = st.g_detector ∧
    (mp3_session_deinit sess st).g_detector = st.g_detector ∧
    (mp3_analyze impl dd h info allocOk st).2.2.g_detector = st.g_detector := by
  refine ⟨rfl, rfl, rfl, rfl, ?_, ?_, ?_⟩
  · rcases dd with _ | dd
    · rfl
    rcases h with _ | h
    · rfl
    rcases slot with _ | slot
    · rfl
    by_cases hr : h.read_at_null = true
    · simp [mp3_session_init, hr]
    cases allocOk
    · simp [mp3_session_init, hr]
    by_cases hc : impl.init h = .MP3_OK
    · simp [mp3_session_init, hr, hc]
    · simp [mp3_session_init, hr, hc]
  · rcases sess with _ | sess <;> rfl
  · rcases dd with _ | dd
    · rfl
    rcases h with _ | h
    · rfl
    rcases info with _ | info
    · rfl
    by_cases hr : h.read_at_null = true
    · simp [mp3_analyze, mp3_session_init, hr]
    cases allocOk
    · simp [mp3_analyze, mp3_session_init, hr]
    by_cases hc : impl.init h = .MP3_OK
    · simp [mp3_analyze, mp3_session_init, mp3_session_run, mp3_session_deinit, hr, hc]
    · simp [mp3_analyze, mp3_session_init, hr, hc]

/-- Counterexample to C10 as stated: with all three pointers non-null, a
host api lacking the read callback makes mp3_session_init return
INVALID_ARG after its pointer checks passed, yet the out_session slot is
left untouched: a stale non-null session pointer coexists with the error
code. -/
theorem C10_counterexample :
    mp3_session_init stubRustImpl (some gDetectorAddr) (some apiNoRead)
        (some (some staleSession)) true st0 =
      (.MP3_ERR_INVALID_ARG, some (some staleSession), st0) ∧
    mp3_result_t.MP3_ERR_INVALID_ARG ≠ .MP3_OK ∧
    (some (some staleSession) : Option (Option mp3_session_t)) ≠ some none :=
  ⟨rfl, by decide, by simp⟩

/-- Claim C10 (amended): with non-null pointers and the read callback
present, mp3_session_init returns MP3_OK exactly when it stores the
freshly allocated session (allocator id `st.nextId`, not previously live,
marked live afterwards) in the slot; every other failure on that path
(out-of-memory, engine init error) stores a null session; only the
INVALID_ARG return for a missing read callback leaves the slot untouched. -/
theorem C10_init_slot (impl : RustImpl) (d : Nat) (h : mp3_host_api_t)
    (v : Option mp3_session_t) (allocOk : Bool) (st : BridgeState)
    (hfresh : st.nextId ∉ st.live) :
    (h.read_at_null = false →
      (((mp3_session_init impl (some d) (some h) (some v) allocOk st).1 = .MP3_OK) ↔
        (mp3_session_init impl (some d) (some h) (some v) allocOk st).2.1 =
          some (some ⟨st.nextId, h⟩))) ∧
    ((mp3_session_init impl (some d) (some h) (some v) allocOk st).1 = .MP3_OK →
      (⟨st.nextId, h⟩ : mp3_session_t).id ∉ st.live ∧
      (mp3_session_init impl (some d) (some h) (some v) allocOk st).2.2.live =
        st.nextId :: st.live) ∧
    ((mp3_session_init impl (some d) (some h) (some v) allocOk st).1 ≠ .MP3_OK →
      h.read_at_null = false →
      (mp3_session_init impl (some d) (some h) (some v) allocOk st).2.1 = some none) ∧
    (h.read_at_null = true →
      mp3_session_init impl (some d) (some h) (some v) allocOk st =
        (.MP3_ERR_INVALID_ARG, some v, st)) := by
  refine ⟨?_, ?_, ?_, ?_⟩
  · intro hr
    constructor
    · intro hok
      rw [init_ok_inv impl d h v allocOk st hok]
    · intro hslot
      cases allocOk
      · simp [mp3_session_init, hr] at hslot
      by_cases hc : impl.init h = .MP3_OK
      · simp [mp3_session_init, hr, hc]
      · simp [mp3_session_init, hr, hc] at hslot
  · intro hok
    rw [init_ok_inv impl d h v allocOk st hok]
    exact ⟨hfresh, rfl⟩
  · intro hne hr
    cases allocOk
    · simp [mp3_session_init, hr]
    by_cases hc : impl.init h = .MP3_OK
    · exact absurd (by simp [mp3_session_init, hr, hc]) hne
    · simp [mp3_session_init, hr, hc]
  · intro hr
    simp [mp3_session_init, hr]

/-- Witness for C10 (amended): under the spec-modelled engine a concrete
init succeeds and stores the fresh session 0; under the stub it fails and
nulls the slot. -/
theorem C10_init_slot_witness :
    (mp3_session_init specRustImpl (some gDetectorAddr) (some apiOk)
        (some (some staleSession)) true st0).2.1 = some (some ⟨st0.nextId, apiOk⟩) ∧
    (mp3_session_init stubRustImpl (some gDetectorAddr) (some apiOk)
        (some (some staleSession)) true st0).2.1 = some none :=
  ⟨((C10_init_slot specRustImpl gDetectorAddr apiOk (some staleSession) true st0
      (by simp [st0])).1 rfl).mp rfl,
    (C10_init_slot stubRustImpl gDetectorAddr apiOk (some staleSession) true st0
      (by simp [st0])).2.2.1 (by decide) rfl⟩

/-- An engine respecting the failure contract of §7: once the bridge has
zeroed the record, a failed run never hands it back with valid set. -/
def EngineContract (impl : RustImpl) : Prop :=
  ∀ h, (impl.run h).1 ≠ .MP3_OK → ((impl.run h).2).valid = 0

theorem stub_engine_contract : EngineContract stubRustImpl :=
  fun _ _ => rfl

theorem computeDuration_error_inv (src : ByteSource) (h : FrameHeader)
    (vbr : Option VbrInfo) (a e : Nat) (p : Prop) [Decidable p] (c : mp3_result_t)
    (hc : computeDuration src h vbr a e p = .error c) :
    c = .MP3_ERR_INVALID_FORMAT := by
  unfold computeDuration at hc
  dsimp only at hc
  repeat' split at hc
  all_goals simp_all

theorem spec_core_error_ne_ok (src : ByteSource) (n : Nat) (c : mp3_result_t)
    (hc : mp3_spec_analyze_core src n = .error c) :
    c = .MP3_ERR_INVALID_FORMAT := by
  unfold mp3_spec_analyze_core at hc
  dsimp only at hc
  repeat' split at hc
  all_goals
    first
      | (injection hc with hcc
         subst hcc
         exact computeDuration_error_inv _ _ _ _ _ _ _ (by assumption))
      | (injection hc with hcc
         exact hcc.symm)
      | (injection hc)

theorem spec_core_valid (src : ByteSource) (n : Nat) (i : mp3_audio_info_t)
    (hc : mp3_spec_analyze_core src n = .ok i) : i.valid = 1 := by
  unfold mp3_spec_analyze_core at hc
  dsimp only at hc
  repeat' split at hc
  all_goals
    first
      | (injection hc with hcc
         rw [← hcc])
      | (injection hc)

theorem spec_analyze_cases (src : ByteSource) (n : Nat) :
    (mp3_spec_analyze src n).1 = .MP3_OK ∧ ((mp3_spec_analyze src n).2).valid = 1 ∨
    (mp3_spec_analyze src n).1 = .MP3_ERR_INVALID_FORMAT ∧
      (mp3_spec_analyze src n).2 = zeroInfo := by
  rcases hc : mp3_spec_analyze_core src n with c | i
  · right
    have hcc := spec_core_error_ne_ok src n c hc
    subst hcc
    unfold mp3_spec_analyze
    rw [hc]
    exact ⟨rfl, rfl⟩
  · left
    have hval := spec_core_valid src n i hc
    unfold mp3_spec_analyze
    rw [hc]
    exact ⟨rfl, hval⟩

theorem spec_engine_contract : EngineContract specRustImpl := by
  intro h hne
  rcases spec_analyze_cases h.src h.source_size with ⟨hok, -⟩ | ⟨-, hz⟩
  · exact absurd hok hne
  · show ((mp3_spec_analyze h.src h.source_size).2).valid = 0
    rw [hz]
    rfl

theorem spec_engine_valid_on_ok (h : mp3_host_api_t)
    (hok : (specRustImpl.run h).1 = .MP3_OK) : ((specRustImpl.run h).2).valid = 1 := by
  rcases spec_analyze_cases h.src h.source_size with ⟨-, hv⟩ | ⟨hfmt, -⟩
  · exact hv
  · have hne : (mp3_spec_analyze h.src h.source_size).1 = .MP3_OK := hok
    rw [hfmt] at hne
    exact absurd hne (by decide)

/-- Claim C2 (amended): once the pointer checks pass, a failing analysis
never yields a record marked valid: for any engine satisfying the §7
failure contract (the stub and the spec-modelled engine both do), a
non-OK mp3_session_run returns the record with valid = 0, and a non-OK
mp3_analyze returns it either with valid = 0 or bit-for-bit untouched;
under the spec-modelled engine valid = 1 happens exactly on MP3_OK.  The
unqualified claim fails on the INVALID_PTR early returns, which do not
touch the caller record at all (see the counterexample). -/
theorem C2_no_partial_valid (impl : RustImpl) (hcon : EngineContract impl)
    (s : mp3_session_t) (i : mp3_audio_info_t) (d : Nat) (h : mp3_host_api_t)
    (allocOk : Bool) (st : BridgeState) :
    (∀ c j, mp3_session_run impl (some s) (some i) = (c, some j) →
      c ≠ .MP3_OK → j.valid = 0) ∧
    (∀ c j st₂,
      mp3_analyze impl (some d) (some h) (some i) allocOk st = (c, some j, st₂) →
      c ≠ .MP3_OK → j.valid = 0 ∨ j = i) := by
  constructor
  · intro c j hrun hne
    have h1 : c = (impl.run s.api).1 := (congrArg (fun t => t.1) hrun).symm
    have h2 : some ((impl.run s.api).2) = some j := congrArg (fun t => t.2) hrun
    obtain rfl : (impl.run s.api).2 = j := by injection h2
    exact hcon s.api (h1 ▸ hne)
  · intro c j st₂ hana hne
    by_cases hr : h.read_at_null = true
    · right
      simp [mp3_analyze, mp3_session_init, hr] at hana
      exact hana.2.1.symm
    cases allocOk
    · right
      simp [mp3_analyze, mp3_session_init, hr] at hana
      exact hana.2.1.symm
    by_cases hc : impl.init h = .MP3_OK
    · left
      simp [mp3_analyze, mp3_session_init, mp3_session_run, mp3_session_deinit,
        hr, hc] at hana
      obtain rfl : (impl.run h).2 = j := hana.2.1
      exact hcon h (hana.1 ▸ hne)
    · right
      simp [mp3_analyze, mp3_session_init, hr, hc] at hana
      exact hana.2.1.symm

/-- Witness for C2 (amended): the stub engine run fails with
NOT_IMPLEMENTED and the record it hands back has valid = 0. -/
theorem C2_no_partial_valid_witness : zeroInfo.valid = 0 :=
  (C2_no_partial_valid stubRustImpl stub_engine_contract ⟨0, apiOk⟩ staleInfo
      gDetectorAddr apiOk true st0).1 .MP3_ERR_NOT_IMPLEMENTED zeroInfo rfl (by decide)

/-- Counterexample to C2 as stated: mp3_session_run with a null session
pointer returns a non-OK code while the caller's record, with its stale
valid = 1 flag, is left untouched. -/
theorem C2_counterexample :
    mp3_session_run stubRustImpl none (some staleInfo) =
      (.MP3_ERR_INVALID_PTR, some staleInfo) ∧
    mp3_result_t.MP3_ERR_INVALID_PTR ≠ .MP3_OK ∧ staleInfo.valid = 1 :=
  ⟨rfl, by decide, rfl⟩

/-- Claim C6: the analysis is a deterministic function of the detector
handle, the host api (hence the ByteSource) and the engine: running
mp3_analyze a second time over the same ByteSource — reusing the record
left by the first call, from whatever bridge state the first call left —
yields exactly the same result code and the same record. -/
theorem C6_deterministic (impl : RustImpl) (d : Option Nat)
    (h : Option mp3_host_api_t) (i i₁ i₂ : Option mp3_audio_info_t)
    (allocOk : Bool) (st st₁ stA stB : BridgeState) (c₁ c₂ : mp3_result_t)
    (h1 : mp3_analyze impl d h i allocOk st = (c₁, i₁, stA))
    (h2 : mp3_analyze impl d h i₁ allocOk st₁ = (c₂, i₂, stB)) :
    c₂ = c₁ ∧ i₂ = i₁ := by
  rcases d with _ | d
  · simp [mp3_analyze] at h1 h2
    obtain ⟨e1, e2, -⟩ := h1
    subst e1
    subst e2
    obtain ⟨e1, e2, -⟩ := h2
    exact ⟨e1.symm.trans rfl, e2.symm⟩
  rcases h with _ | h
  · simp [mp3_analyze] at h1 h2
    obtain ⟨e1, e2, -⟩ := h1
    subst e1
    subst e2
    obtain ⟨e1, e2, -⟩ := h2
    exact ⟨e1.symm.trans rfl, e2.symm⟩
  rcases i with _ | i
  · simp [mp3_analyze] at h1
    obtain ⟨e1, e2, -⟩ := h1
    subst e1
    subst e2
    simp [mp3_analyze] at h2
    obtain ⟨e1, e2, -⟩ := h2
    exact ⟨e1.symm, e2.symm⟩
  by_cases hr : h.read_at_null = true
  · simp [mp3_analyze, mp3_session_init, hr] at h1
    obtain ⟨e1, e2, -⟩ := h1
    subst e1
    subst e2
    simp [mp3_analyze, mp3_session_init, hr] at h2
    obtain ⟨e1, e2, -⟩ := h2
    exact ⟨e1.symm, e2.symm⟩
  cases allocOk
  · simp [mp3_analyze, mp3_session_init, hr] at h1
    obtain ⟨e1, e2, -⟩ := h1
    subst e1
    subst e2
    simp [mp3_analyze, mp3_session_init, hr] at h2
    obtain ⟨e1, e2, -⟩ := h2
    exact ⟨e1.symm, e2.symm⟩
  by_cases hc : impl.init h = .MP3_OK
  · simp [mp3_analyze, mp3_session_init, mp3_session_run, mp3_session_deinit,
      hr, hc] at h1
    obtain ⟨e1, e2, -⟩ := h1
    subst e1
    subst e2
    simp [mp3_analyze, mp3_session_init, mp3_session_run, mp3_session_deinit,
      hr, hc] at h2
    obtain ⟨e1, e2, -⟩ := h2
    exact ⟨e1.symm, e2.symm⟩
  · simp [mp3_analyze, mp3_session_init, hr, hc] at h1
    obtain ⟨e1, e2, -⟩ := h1
    subst e1
    subst e2
    simp [mp3_analyze, mp3_session_init, hr, hc] at h2
    obtain ⟨e1, e2, -⟩ := h2
    exact ⟨e1.symm, e2.symm⟩

/-- Witness for C6: two consecutive stub-engine analyses of the same
source return the same code and record. -/
theorem C6_deterministic_witness :
    mp3_result_t.MP3_ERR_NOT_IMPLEMENTED = .MP3_ERR_NOT_IMPLEMENTED ∧
    (some staleInfo : Option mp3_audio_info_t) = some staleInfo :=
  C6_deterministic stubRustImpl (some gDetectorAddr) (some apiOk) (some staleInfo)
    (some staleInfo) (some staleInfo) true st0 st0 st0 st0
    .MP3_ERR_NOT_IMPLEMENTED .MP3_ERR_NOT_IMPLEMENTED rfl rfl

/-- The init-run-deinit call sequence the spec and claim C9 describe: one
mp3_session_init into a local null-initialised session variable; when it
succeeds, a single mp3_session_run and the mp3_session_deinit teardown;
otherwise the init error with no run performed. -/
def initRunDeinitSeq (impl : RustImpl) (detector : Option Nat)
    (host_api : Option mp3_host_api_t) (info : Option mp3_audio_info_t)
    (allocOk : Bool) (st : BridgeState) :
    mp3_result_t × Option mp3_audio_info_t × BridgeState :=
  let r := mp3_session_init impl detector host_api (some none) allocOk st
  if r.1 = .MP3_OK then
    let s := match r.2.1 with
      | some v => v
      | none => none
    let rr := mp3_session_run impl s info
    (rr.1, rr.2, mp3_session_deinit s r.2.2)
  else (r.1, info, r.2.2)

/-- Claim C9 (amended): whenever the output pointer is non-null,
mp3_analyze coincides exactly — code, record and final state — with the
init-run-deinit sequence: the init error is returned with no run when
initialization fails, and otherwise the single run's result is returned
with the session torn down either way.  With a null output pointer the two
disagree whenever initialization would fail with anything other than
INVALID_PTR, because mp3_analyze's own pointer check short-circuits first
(see the counterexample). -/
theorem C9_analyze_is_init_run_deinit (impl : RustImpl) (d : Option Nat)
    (h : Option mp3_host_api_t) (i : mp3_audio_info_t) (allocOk : Bool)
    (st : BridgeState) :
    mp3_analyze impl d h (some i) allocOk st =
      initRunDeinitSeq impl d h (some i) allocOk st := by
  rcases d with _ | d
  · rfl
  rcases h with _ | h
  · rfl
  by_cases hr : h.read_at_null = true
  · simp [mp3_analyze, initRunDeinitSeq, mp3_session_init, hr]
  cases allocOk
  · simp [mp3_analyze, initRunDeinitSeq, mp3_session_init, hr]
  by_cases hc : impl.init h = .MP3_OK
  · simp [mp3_analyze, initRunDeinitSeq, mp3_session_init, mp3_session_run,
      mp3_session_deinit, hr, hc]
  · simp [mp3_analyze, initRunDeinitSeq, mp3_session_init, hr, hc]

/-- Counterexample to C9 as stated (for every out_info): with a null
output pointer and a host api lacking its read callback, mp3_analyze
returns INVALID_PTR from its own check while the init-run-deinit sequence
reports the INVALID_ARG init error. -/
theorem C9_counterexample :
    (mp3_analyze stubRustImpl (some gDetectorAddr) (some apiNoRead) none true st0).1 =
      .MP3_ERR_INVALID_PTR ∧
    (initRunDeinitSeq stubRustImpl (some gDetectorAddr) (some apiNoRead) none
        true st0).1 = .MP3_ERR_INVALID_ARG ∧
    mp3_result_t.MP3_ERR_INVALID_PTR ≠ .MP3_ERR_INVALID_ARG :=
  ⟨rfl, rfl, by decide⟩

end Mp3
